import Mathlib

/-!
# DomainChecker: a Lean model of `checkdomain.go`

The program reads a domain from standard input, runs five DNS lookups through
Go's `net` package and prints either the records found or one error line.

Modelling decisions.

* A Go `string` is a Lean `String` (the input is taken to be valid UTF-8).
* A Go slice is an `Option (List α)`: `none` is the nil slice, `some []` an
  empty slice that is not nil, `some (a :: l)` a slice with records.  The
  entries of `[]*net.MX` and `[]*net.NS` are modelled by the records they
  point to: `net.LookupMX` and `net.LookupNS` drop nil entries from what they
  return.
* A Go `error` is an `Option GoError`, `none` being the nil error.
* `strings.TrimSpace`, `bufio.Reader.ReadString` and the `fmt` calls belong to
  the Go standard library and are modelled from their documentation; `%d` is
  the decimal rendering of `toString`.
* The outside world is explicit: the unread bytes of standard input, the
  writes made to standard output (one entry per `fmt` call) and the log of the
  calls made to the resolver.  The resolver is a parameter (`Net`); its answer
  may depend on the calls made before.
-/

namespace DomainChecker

/-! ## Errors -/

/-- A Go error value: either an error reported by a package outside the
program (known only by its message), or the `*fmt.wrapError` that `fmt.Errorf`
builds for a format with one `%w` verb. -/
inductive GoError where
  | cause (msg : String)
  | wrapError (msg : String) (err : GoError)
deriving DecidableEq, Repr

/-- The method `Error()` of an error value. -/
def GoError.Error : GoError → String
  | .cause msg => msg
  | .wrapError msg _ => msg

/-- The method `Unwrap()`: the error a `*fmt.wrapError` wraps. -/
def GoError.Unwrap : GoError → Option GoError
  | .cause _ => none
  | .wrapError _ err => some err

/-- The call `fmt.Errorf(head + "%w", err)`, where `head` is the text already
formatted in front of the `%w` verb: the message renders `err` as `%v` does
and the result wraps `err` itself. -/
def Errorf (head : String) (err : GoError) : GoError :=
  .wrapError (head ++ err.Error) err

/-- The error `io.EOF`. -/
def EOF : GoError := .cause "EOF"

/-! ## Records and the resolver -/

/-- The type `net.MX`: a host and its preference (a `uint16` in Go). -/
structure MX where
  Host : String
  Pref : Nat
deriving DecidableEq, Repr

/-- The type `net.NS`. -/
structure NS where
  Host : String
deriving DecidableEq, Repr

/-- The five resolver operations of package `net` that the program uses. -/
inductive Kind where
  | LookupMX | LookupCNAME | LookupTXT | LookupNS | LookupHost
deriving DecidableEq, Repr

/-- One invocation of a resolver operation. -/
structure Call where
  kind : Kind
  name : String
deriving DecidableEq, Repr

/-- The resolver of package `net`, external to the program.  Each operation
returns a Go pair (result, error); the first argument is the log of the calls
made so far, so that an answer may change from one call to the next. -/
structure Net where
  LookupMX : List Call → String → Option (List MX) × Option GoError
  LookupCNAME : List Call → String → String × Option GoError
  LookupTXT : List Call → String → Option (List String) × Option GoError
  LookupNS : List Call → String → Option (List NS) × Option GoError
  LookupHost : List Call → String → Option (List String) × Option GoError

/-- The state of the world around the program. -/
structure World where
  stdin : List Char
  stdout : List String
  calls : List Call
deriving DecidableEq, Repr

/-- Record one resolver call in the log. -/
def World.called (w : World) (k : Kind) (name : String) : World :=
  { w with calls := w.calls ++ [⟨k, name⟩] }

/-! ## Library calls: `fmt`, `bufio`, `strings` -/

/-- The calls `fmt.Print(s)` and `fmt.Printf` once the text is formatted: one
write of `s` to standard output. -/
def Print (w : World) (s : String) : World :=
  { w with stdout := w.stdout ++ [s] }

/-- The call `fmt.Println(s)`: one write of `s` followed by a newline. -/
def Println (w : World) (s : String) : World :=
  Print w (s ++ "\n")

/-- The verb `%d` applied to an unsigned integer. -/
def fmtD (n : Nat) : String := toString n

/-- The call `reader.ReadString('\n')` of `bufio`: the bytes of standard input
up to and including the first line feed, or, when there is none, all that is
left together with `io.EOF`. -/
def ReadString (w : World) : (String × Option GoError) × World :=
  match w.stdin.span (fun c => c != '\n') with
  | (line, []) => ((⟨line⟩, some EOF), { w with stdin := [] })
  | (line, nl :: rest) => ((⟨line ++ [nl]⟩, none), { w with stdin := rest })

/-- The predicate `unicode.IsSpace`. -/
def IsSpace (c : Char) : Bool :=
  let r := c.toNat
  if r ≤ 0xFF then
    r = 0x09 || r = 0x0A || r = 0x0B || r = 0x0C || r = 0x0D || r = 0x20 ||
      r = 0x85 || r = 0xA0
  else
    r = 0x1680 || (0x2000 ≤ r && r ≤ 0x200A) || r = 0x2028 || r = 0x2029 ||
      r = 0x202F || r = 0x205F || r = 0x3000

/-- The function `strings.TrimSpace`: the string without its leading and
trailing white space, as `unicode.IsSpace` defines it. -/
def TrimSpace (s : String) : String :=
  ⟨((s.data.dropWhile IsSpace).reverse.dropWhile IsSpace).reverse⟩

/-! ## The program -/

/-- Source lines 11-17: one call of `net.LookupMX`; a failure is wrapped and the
result dropped. -/
def checkMxRecord (net : Net) (domain : String) (w : World) :
    (Option (List MX) × Option GoError) × World :=
  let (mxRecords, err) := net.LookupMX w.calls domain
  let w := w.called .LookupMX domain
  match err with
  | some err => ((none, some (Errorf ("MX lookup failed for " ++ domain ++ ": ") err)), w)
  | none => ((mxRecords, none), w)

/-- Source lines 19-25: one call of `net.LookupCNAME`; on failure the result is
the empty string. -/
def checkCnameRecord (net : Net) (domain : String) (w : World) :
    (String × Option GoError) × World :=
  let (cname, err) := net.LookupCNAME w.calls domain
  let w := w.called .LookupCNAME domain
  match err with
  | some err => (("", some (Errorf ("CNAME lookup failed for " ++ domain ++ ": ") err)), w)
  | none => ((cname, none), w)

/-- Source lines 27-33: one call of `net.LookupTXT`. -/
def checkTxtRecord (net : Net) (domain : String) (w : World) :
    (Option (List String) × Option GoError) × World :=
  let (txtRecords, err) := net.LookupTXT w.calls domain
  let w := w.called .LookupTXT domain
  match err with
  | some err => ((none, some (Errorf ("TXT lookup failed for " ++ domain ++ ": ") err)), w)
  | none => ((txtRecords, none), w)

/-- Source lines 35-41: one call of `net.LookupNS`. -/
def checkNsRecord (net : Net) (domain : String) (w : World) :
    (Option (List NS) × Option GoError) × World :=
  let (nsRecords, err) := net.LookupNS w.calls domain
  let w := w.called .LookupNS domain
  match err with
  | some err => ((none, some (Errorf ("NS lookup failed for " ++ domain ++ ": ") err)), w)
  | none => ((nsRecords, none), w)

/-- Source lines 43-49: one call of `net.LookupHost`; the message of a failure
reads `host resolution failed`. -/
def resolveDomain (net : Net) (domain : String) (w : World) :
    (Option (List String) × Option GoError) × World :=
  let (addresses, err) := net.LookupHost w.calls domain
  let w := w.called .LookupHost domain
  match err with
  | some err => ((none, some (Errorf ("host resolution failed for " ++ domain ++ ": ") err)), w)
  | none => ((addresses, none), w)

/-- The loop `for _, x := range xs { fmt.Printf(...) }`: one write per entry,
in the order of the slice; `line x` is the formatted text. -/
def rangePrintf {α : Type} (line : α → String) : List α → World → World
  | [], w => w
  | x :: xs, w => rangePrintf line xs (Print w (line x))

/-- Source lines 51-86: with an error, one line and nothing else; without, the
header and the sections, each guarded by a test against nil (against the empty
string for CNAME). -/
def printResults (domain : String) (mx : Option (List MX)) (cname : String)
    (txt : Option (List String)) (nsrecord : Option (List NS))
    (addresses : Option (List String)) (err : Option GoError) (w : World) : World :=
  match err with
  | some err => Print w ("Error for " ++ domain ++ ": " ++ err.Error ++ "\n")
  | none =>
    let w := Println w ("Results for" ++ " " ++ domain)
    let w := match mx with
      | some records =>
        rangePrintf (fun record => "  Host: " ++ record.Host ++ ", Priority: " ++
          fmtD record.Pref ++ "\n") records (Println w "\nMX Records:")
      | none => w
    let w := if cname != "" then
        Print (Println w "\nCNAME Record:") ("  " ++ cname ++ "\n")
      else w
    let w := match txt with
      | some records =>
        rangePrintf (fun record => "  " ++ record ++ "\n") records (Println w "\nTXT Records:")
      | none => w
    let w := match nsrecord with
      | some records =>
        rangePrintf (fun record => "  " ++ record.Host ++ "\n") records
          (Println w "\nNS Records:")
      | none => w
    match addresses with
    | some addrs =>
      rangePrintf (fun addr => "  " ++ addr ++ "\n") addrs (Println w "\nIP Addresses:")
    | none => w

/-- Source lines 119-126: the first entry that is not nil, scanning from the
front; nil when there is none. -/
def consolidateErrors : List (Option GoError) → Option GoError
  | [] => none
  | some err :: _ => some err
  | none :: errors => consolidateErrors errors

/-- Source lines 88-117: prompt, read a line, trim it, run the five lookups in
the order MX, CNAME, TXT, address resolution, NS, print, then wait for one more
line.  The closing `for` loop runs its body once. -/
def main (net : Net) (w : World) : World :=
  let w := Print w "Enter a domain or host name: "
  let ((input, err), w) := ReadString w
  match err with
  | some err => Println w ("Error reading input:" ++ " " ++ err.Error)
  | none =>
    let domain := TrimSpace input
    let ((mx, mxErr), w) := checkMxRecord net domain w
    let ((cname, cnameErr), w) := checkCnameRecord net domain w
    let ((txt, txtErr), w) := checkTxtRecord net domain w
    let ((addresses, resolveErr), w) := resolveDomain net domain w
    let ((ns, nsErr), w) := checkNsRecord net domain w
    let w := printResults domain mx cname txt ns addresses
      (consolidateErrors [mxErr, cnameErr, txtErr, nsErr, resolveErr]) w
    let w := Print w "\n\nPress Enter to continue..."
    let ((_, err), w) := ReadString w
    match err with
    | some err => Println w ("Error reading input:" ++ " " ++ err.Error)
    | none => Println w ""

/-! ## Definitions used to state lemmas and examples -/

/-- The writes of one list category: none for a nil slice, else the header and
one line per entry. -/
def block {α : Type} (header : String) (line : α → String) : Option (List α) → List String
  | none => []
  | some records => header :: records.map line

/-- Example resolver: every operation fails with the cause `no such host`. -/
def failingNet : Net where
  LookupMX := fun _ _ => (none, some (.cause "no such host"))
  LookupCNAME := fun _ _ => ("", some (.cause "no such host"))
  LookupTXT := fun _ _ => (none, some (.cause "no such host"))
  LookupNS := fun _ _ => (none, some (.cause "no such host"))
  LookupHost := fun _ _ => (none, some (.cause "no such host"))

/-! ## Lemmas on the output and the input -/

/-- The loop writes the formatted entries in order. -/
theorem rangePrintf_eq {α : Type} (line : α → String) (xs : List α) (w : World) :
    rangePrintf line xs w = { w with stdout := w.stdout ++ xs.map line } := by
  induction xs generalizing w with
  | nil => simp [rangePrintf]
  | cons x xs ih => simp [rangePrintf, ih, Print]

/-- Without an error, `printResults` appends the header line and then, in the
order MX, CNAME, TXT, NS, addresses, the section of every category whose slice
is not nil (whose string is not empty, for CNAME). -/
theorem printResults_layout (domain : String) (mx : Option (List MX)) (cname : String)
    (txt : Option (List String)) (nsrecord : Option (List NS))
    (addresses : Option (List String)) (w : World) :
    printResults domain mx cname txt nsrecord addresses none w =
      { w with stdout := w.stdout ++ (["Results for " ++ domain ++ "\n"] ++
          (match mx with
            | none => []
            | some records => "\nMX Records:\n" :: records.map (fun record =>
                "  Host: " ++ record.Host ++ ", Priority: " ++ toString record.Pref ++ "\n")) ++
          (if cname = "" then [] else ["\nCNAME Record:\n", "  " ++ cname ++ "\n"]) ++
          (match txt with
            | none => []
            | some records => "\nTXT Records:\n" :: records.map (fun record =>
                "  " ++ record ++ "\n")) ++
          (match nsrecord with
            | none => []
            | some records => "\nNS Records:\n" :: records.map (fun record =>
                "  " ++ record.Host ++ "\n")) ++
          (match addresses with
            | none => []
            | some addrs => "\nIP Addresses:\n" :: addrs.map (fun addr =>
                "  " ++ addr ++ "\n"))) } := by
  cases mx <;> cases txt <;> cases nsrecord <;> cases addresses <;>
    by_cases hc : cname = "" <;>
    simp [printResults, rangePrintf_eq, Println, Print, hc, fmtD, String.append_assoc]

theorem span_no_nl (line rest : List Char) (hline : '\n' ∉ line) :
    (line ++ '\n' :: rest).span (fun c => c != '\n') = (line, '\n' :: rest) := by
  rw [List.span_eq_take_drop]
  induction line with
  | nil => simp [List.takeWhile, List.dropWhile]
  | cons c cs ih =>
    have hc : c ≠ '\n' := fun h => hline (by simp [h])
    have hcs : '\n' ∉ cs := fun h => hline (by simp [h])
    have := ih hcs
    simp only [Prod.mk.injEq] at this
    have hb : (c != '\n') = true := by simpa using hc
    simp [List.takeWhile, List.dropWhile, hb, this.1, this.2]

theorem span_eof (s : List Char) (hno : '\n' ∉ s) :
    s.span (fun c => c != '\n') = (s, []) := by
  rw [List.span_eq_take_drop]
  have h1 : s.takeWhile (fun c => c != '\n') = s := by
    rw [List.takeWhile_eq_self_iff]
    intro c hc
    simp only [bne_iff_ne, ne_eq]
    rintro rfl
    exact hno hc
  have h2 : s.dropWhile (fun c => c != '\n') = [] := by
    rw [List.dropWhile_eq_nil_iff]
    intro c hc
    simp only [bne_iff_ne, ne_eq]
    rintro rfl
    exact hno hc
  rw [h1, h2]

theorem ReadString_line (w : World) (line rest : List Char) (hline : '\n' ∉ line)
    (hin : w.stdin = line ++ '\n' :: rest) :
    ReadString w = ((⟨line ++ ['\n']⟩, none), { w with stdin := rest }) := by
  unfold ReadString
  rw [hin, span_no_nl line rest hline]

theorem ReadString_eof (w : World) (hno : '\n' ∉ w.stdin) :
    ReadString w = ((⟨w.stdin⟩, some EOF), { w with stdin := [] }) := by
  unfold ReadString
  rw [span_eof w.stdin hno]

theorem main_of_line (net : Net) (w : World) (line rest : List Char) (hline : '\n' ∉ line)
    (hin : w.stdin = line ++ '\n' :: rest) :
    main net w =
      (let d := TrimSpace ⟨line ++ ['\n']⟩
       let r1 := checkMxRecord net d { Print w "Enter a domain or host name: " with stdin := rest }
       let r2 := checkCnameRecord net d r1.2
       let r3 := checkTxtRecord net d r2.2
       let r4 := resolveDomain net d r3.2
       let r5 := checkNsRecord net d r4.2
       let r6 := ReadString (Print (printResults d r1.1.1 r2.1.1 r3.1.1 r5.1.1 r4.1.1
          (consolidateErrors [r1.1.2, r2.1.2, r3.1.2, r5.1.2, r4.1.2]) r5.2)
          "\n\nPress Enter to continue...")
       match r6.1.2 with
       | some err => Println r6.2 ("Error reading input:" ++ " " ++ err.Error)
       | none => Println r6.2 "") := by
  have h0 := ReadString_line (Print w "Enter a domain or host name: ") line rest hline
    (by simp [Print, hin])
  simp only [main, h0]

theorem checkMxRecord_eq (net : Net) (d : String) (w : World) :
    checkMxRecord net d w =
      ((match (net.LookupMX w.calls d).2 with
        | some err => (none, some (Errorf ("MX lookup failed for " ++ d ++ ": ") err))
        | none => ((net.LookupMX w.calls d).1, none)), w.called .LookupMX d) := by
  unfold checkMxRecord
  rcases net.LookupMX w.calls d with ⟨r, _ | e⟩ <;> rfl

theorem checkCnameRecord_eq (net : Net) (d : String) (w : World) :
    checkCnameRecord net d w =
      ((match (net.LookupCNAME w.calls d).2 with
        | some err => ("", some (Errorf ("CNAME lookup failed for " ++ d ++ ": ") err))
        | none => ((net.LookupCNAME w.calls d).1, none)), w.called .LookupCNAME d) := by
  unfold checkCnameRecord
  rcases net.LookupCNAME w.calls d with ⟨r, _ | e⟩ <;> rfl

theorem checkTxtRecord_eq (net : Net) (d : String) (w : World) :
    checkTxtRecord net d w =
      ((match (net.LookupTXT w.calls d).2 with
        | some err => (none, some (Errorf ("TXT lookup failed for " ++ d ++ ": ") err))
        | none => ((net.LookupTXT w.calls d).1, none)), w.called .LookupTXT d) := by
  unfold checkTxtRecord
  rcases net.LookupTXT w.calls d with ⟨r, _ | e⟩ <;> rfl

theorem checkNsRecord_eq (net : Net) (d : String) (w : World) :
    checkNsRecord net d w =
      ((match (net.LookupNS w.calls d).2 with
        | some err => (none, some (Errorf ("NS lookup failed for " ++ d ++ ": ") err))
        | none => ((net.LookupNS w.calls d).1, none)), w.called .LookupNS d) := by
  unfold checkNsRecord
  rcases net.LookupNS w.calls d with ⟨r, _ | e⟩ <;> rfl

theorem resolveDomain_eq (net : Net) (d : String) (w : World) :
    resolveDomain net d w =
      ((match (net.LookupHost w.calls d).2 with
        | some err => (none, some (Errorf ("host resolution failed for " ++ d ++ ": ") err))
        | none => ((net.LookupHost w.calls d).1, none)), w.called .LookupHost d) := by
  unfold resolveDomain
  rcases net.LookupHost w.calls d with ⟨r, _ | e⟩ <;> rfl

/-- What `printResults` writes does not depend on the world it starts from. -/
theorem printResults_appends (domain : String) (mx : Option (List MX)) (cname : String)
    (txt : Option (List String)) (nsrecord : Option (List NS))
    (addresses : Option (List String)) (err : Option GoError) :
    ∃ out : List String, ∀ w : World,
      printResults domain mx cname txt nsrecord addresses err w =
        { w with stdout := w.stdout ++ out } := by
  cases err with
  | none => exact ⟨_, fun w => printResults_layout domain mx cname txt nsrecord addresses w⟩
  | some e => exact ⟨["Error for " ++ domain ++ ": " ++ e.Error ++ "\n"], fun w => rfl⟩

theorem ReadString_frame (w : World) :
    (ReadString w).2.stdout = w.stdout ∧ (ReadString w).2.calls = w.calls ∧
    (ReadString w).1.2 = if '\n' ∈ w.stdin then none else some EOF := by
  by_cases h : '\n' ∈ w.stdin
  · obtain ⟨line, rest, hin, hline⟩ := List.eq_append_cons_of_mem h
    rw [ReadString_line w line rest hline hin]
    simp [h]
  · rw [ReadString_eof w h]
    simp [h]

/-- A run of `main` that reads its line: the five calls are logged and the
report stands between the first and the second prompt. -/
theorem main_run (net : Net) (calls : List Call) (d : String) :
    ∃ report : List String, ∀ (line rest : List Char) (out : List String),
      '\n' ∉ line → TrimSpace ⟨line ++ ['\n']⟩ = d →
      (main net ⟨line ++ '\n' :: rest, out, calls⟩).stdout =
        out ++ "Enter a domain or host name: " :: report ++
          ["\n\nPress Enter to continue...",
            if '\n' ∈ rest then "\n" else "Error reading input: EOF\n"] ∧
      (main net ⟨line ++ '\n' :: rest, out, calls⟩).calls =
        calls ++ [⟨.LookupMX, d⟩, ⟨.LookupCNAME, d⟩, ⟨.LookupTXT, d⟩, ⟨.LookupHost, d⟩,
          ⟨.LookupNS, d⟩] := by
  obtain ⟨report, hrep⟩ := printResults_appends d
    (checkMxRecord net d ⟨[], [], calls⟩).1.1
    (checkCnameRecord net d ⟨[], [], calls ++ [⟨.LookupMX, d⟩]⟩).1.1
    (checkTxtRecord net d ⟨[], [], calls ++ [⟨.LookupMX, d⟩] ++ [⟨.LookupCNAME, d⟩]⟩).1.1
    (checkNsRecord net d ⟨[], [], calls ++ [⟨.LookupMX, d⟩] ++ [⟨.LookupCNAME, d⟩] ++
      [⟨.LookupTXT, d⟩] ++ [⟨.LookupHost, d⟩]⟩).1.1
    (resolveDomain net d ⟨[], [], calls ++ [⟨.LookupMX, d⟩] ++ [⟨.LookupCNAME, d⟩] ++
      [⟨.LookupTXT, d⟩]⟩).1.1
    (consolidateErrors [(checkMxRecord net d ⟨[], [], calls⟩).1.2,
      (checkCnameRecord net d ⟨[], [], calls ++ [⟨.LookupMX, d⟩]⟩).1.2,
      (checkTxtRecord net d ⟨[], [], calls ++ [⟨.LookupMX, d⟩] ++ [⟨.LookupCNAME, d⟩]⟩).1.2,
      (checkNsRecord net d ⟨[], [], calls ++ [⟨.LookupMX, d⟩] ++ [⟨.LookupCNAME, d⟩] ++
        [⟨.LookupTXT, d⟩] ++ [⟨.LookupHost, d⟩]⟩).1.2,
      (resolveDomain net d ⟨[], [], calls ++ [⟨.LookupMX, d⟩] ++ [⟨.LookupCNAME, d⟩] ++
        [⟨.LookupTXT, d⟩]⟩).1.2])
  refine ⟨report, fun line rest out hline hd => ?_⟩
  rw [main_of_line net _ line rest hline rfl]
  simp only [checkMxRecord_eq, checkCnameRecord_eq, checkTxtRecord_eq, checkNsRecord_eq,
    resolveDomain_eq, World.called, Print, Println, hd] at hrep ⊢
  rw [hrep]
  have hf := fun w => ReadString_frame w
  simp only [(hf _).1, (hf _).2.1, (hf _).2.2]
  by_cases hnl : '\n' ∈ rest
  · simp [hnl]
  · simp [hnl, EOF, GoError.Error]

/-- The writes of a run of `main` that reads its line: the prompt, what
`printResults` writes for the trimmed line and the results of the five
wrappers on it, the second prompt and the outcome of the second read. -/
theorem main_stdout (net : Net) (calls : List Call) (d : String) (line rest : List Char)
    (out : List String) (hline : '\n' ∉ line) (hd : TrimSpace ⟨line ++ ['\n']⟩ = d) :
    (main net ⟨line ++ '\n' :: rest, out, calls⟩).stdout =
      out ++ ["Enter a domain or host name: "] ++
        (printResults d
          (checkMxRecord net d ⟨[], [], calls⟩).1.1
          (checkCnameRecord net d ⟨[], [], (calls ++ [⟨.LookupMX, d⟩])⟩).1.1
          (checkTxtRecord net d ⟨[], [], (calls ++ [⟨.LookupMX, d⟩, ⟨.LookupCNAME, d⟩])⟩).1.1
          (checkNsRecord net d ⟨[], [],
              (calls ++ [⟨.LookupMX, d⟩, ⟨.LookupCNAME, d⟩, ⟨.LookupTXT, d⟩,
            ⟨.LookupHost, d⟩])⟩).1.1
          (resolveDomain net d ⟨[], [],
              (calls ++ [⟨.LookupMX, d⟩, ⟨.LookupCNAME, d⟩, ⟨.LookupTXT, d⟩])⟩).1.1
          (consolidateErrors
            [(checkMxRecord net d ⟨[], [], calls⟩).1.2,
             (checkCnameRecord net d ⟨[], [], (calls ++ [⟨.LookupMX, d⟩])⟩).1.2,
             (checkTxtRecord net d ⟨[], [], (calls ++ [⟨.LookupMX, d⟩, ⟨.LookupCNAME, d⟩])⟩).1.2,
             (checkNsRecord net d ⟨[], [],
                 (calls ++ [⟨.LookupMX, d⟩, ⟨.LookupCNAME, d⟩, ⟨.LookupTXT, d⟩,
            ⟨.LookupHost, d⟩])⟩).1.2,
             (resolveDomain net d ⟨[], [],
                 (calls ++ [⟨.LookupMX, d⟩, ⟨.LookupCNAME, d⟩, ⟨.LookupTXT, d⟩])⟩).1.2])
          ⟨[], [], []⟩).stdout ++
        ["\n\nPress Enter to continue...",
          if '\n' ∈ rest then "\n" else "Error reading input: EOF\n"] := by
  obtain ⟨report, hrep⟩ := printResults_appends d
    (checkMxRecord net d ⟨[], [], calls⟩).1.1
    (checkCnameRecord net d ⟨[], [], (calls ++ [⟨.LookupMX, d⟩])⟩).1.1
    (checkTxtRecord net d ⟨[], [], (calls ++ [⟨.LookupMX, d⟩, ⟨.LookupCNAME, d⟩])⟩).1.1
    (checkNsRecord net d ⟨[], [], (calls ++ [⟨.LookupMX, d⟩, ⟨.LookupCNAME, d⟩, ⟨.LookupTXT, d⟩,
            ⟨.LookupHost, d⟩])⟩).1.1
    (resolveDomain net d ⟨[], [],
        (calls ++ [⟨.LookupMX, d⟩, ⟨.LookupCNAME, d⟩, ⟨.LookupTXT, d⟩])⟩).1.1
    (consolidateErrors
      [(checkMxRecord net d ⟨[], [], calls⟩).1.2,
       (checkCnameRecord net d ⟨[], [], (calls ++ [⟨.LookupMX, d⟩])⟩).1.2,
       (checkTxtRecord net d ⟨[], [], (calls ++ [⟨.LookupMX, d⟩, ⟨.LookupCNAME, d⟩])⟩).1.2,
       (checkNsRecord net d ⟨[], [], (calls ++ [⟨.LookupMX, d⟩, ⟨.LookupCNAME, d⟩, ⟨.LookupTXT, d⟩,
            ⟨.LookupHost, d⟩])⟩).1.2,
       (resolveDomain net d ⟨[], [],
           (calls ++ [⟨.LookupMX, d⟩, ⟨.LookupCNAME, d⟩, ⟨.LookupTXT, d⟩])⟩).1.2])
  rw [main_of_line net _ line rest hline rfl]
  have hf := fun w => ReadString_frame w
  simp only [checkMxRecord_eq, checkCnameRecord_eq, checkTxtRecord_eq, checkNsRecord_eq,
    resolveDomain_eq, World.called, Print, Println, hd, List.append_assoc, List.cons_append,
    List.nil_append] at hrep ⊢
  simp only [hrep, (hf _).1, (hf _).2.2]
  by_cases hnl : '\n' ∈ rest
  · simp [hnl]
  · simp [hnl, EOF, GoError.Error]

/-- Strings with different first characters differ. -/
theorem head_ne (s t : String) (h : s.data.head? ≠ t.data.head?) : s ≠ t := by
  rintro rfl
  exact h rfl

theorem header_ne_indented (hdr x : String) (h : hdr.data.head? = some '\n') :
    hdr ≠ "  " ++ x := by
  apply head_ne
  rw [h, String.data_append]
  simp

theorem header_ne_results (hdr x : String) (h : hdr.data.head? = some '\n') :
    hdr ≠ "Results for " ++ x := by
  apply head_ne
  rw [h, String.data_append]
  simp

example (x : String) : "\nTXT Records:\n" ≠ "  " ++ x ++ "\n" := by
  rw [String.append_assoc]
  exact header_ne_indented _ _ (by decide)

theorem printResults_blocks (domain : String) (mx : Option (List MX)) (cname : String)
    (txt : Option (List String)) (nsrecord : Option (List NS))
    (addresses : Option (List String)) (w : World) :
    (printResults domain mx cname txt nsrecord addresses none w).stdout =
      w.stdout ++ (["Results for " ++ domain ++ "\n"] ++
        block "\nMX Records:\n" (fun record : MX =>
          "  Host: " ++ record.Host ++ ", Priority: " ++ toString record.Pref ++ "\n") mx ++
        (if cname = "" then [] else ["\nCNAME Record:\n", "  " ++ cname ++ "\n"])) ++
        (block "\nTXT Records:\n" (fun record : String => "  " ++ record ++ "\n") txt ++
        (block "\nNS Records:\n" (fun record : NS => "  " ++ record.Host ++ "\n") nsrecord ++
        block "\nIP Addresses:\n" (fun addr : String => "  " ++ addr ++ "\n") addresses)) := by
  rw [printResults_layout]
  cases mx <;> cases txt <;> cases nsrecord <;> cases addresses <;> simp [block]

theorem header_not_mem_block {α : Type} (hdr other : String) (line : α → String)
    (h : hdr.data.head? = some '\n') (hne : hdr ≠ other)
    (hline : ∀ a, ∃ x, line a = "  " ++ x) (records : Option (List α)) :
    hdr ∉ block other line records := by
  cases records with
  | none => simp [block]
  | some rs =>
    simp only [block, List.mem_cons, List.mem_map, not_or, not_exists, not_and]
    refine ⟨hne, fun a _ heq => ?_⟩
    obtain ⟨x, hx⟩ := hline a
    exact header_ne_indented hdr x h (heq.symm.trans hx)

theorem header_not_mem_cname (hdr cname : String) (h : hdr.data.head? = some '\n')
    (hne : hdr ≠ "\nCNAME Record:\n") :
    hdr ∉ (if cname = "" then [] else ["\nCNAME Record:\n", "  " ++ cname ++ "\n"]) := by
  split
  · simp
  · simp only [List.mem_cons, List.mem_singleton, List.not_mem_nil, or_false, not_or]
    exact ⟨hne, by rw [String.append_assoc]; exact header_ne_indented hdr _ h⟩

theorem mx_line_indented (record : MX) : ∃ x, "  Host: " ++ record.Host ++ ", Priority: " ++
    toString record.Pref ++ "\n" = "  " ++ x :=
  ⟨"Host: " ++ record.Host ++ ", Priority: " ++ toString record.Pref ++ "\n", by
    simp only [String.append_assoc]; rfl⟩

theorem raw_line_indented (record : String) : ∃ x, "  " ++ record ++ "\n" = "  " ++ x :=
  ⟨record ++ "\n", by simp only [String.append_assoc]⟩

theorem header_not_mem_others (domain : String) (mx : Option (List MX)) (cname : String)
    (txt : Option (List String)) (nsrecord : Option (List NS))
    (addresses : Option (List String)) (hdr : String) (h : hdr.data.head? = some '\n') :
    hdr ∉ ["Results for " ++ domain ++ "\n"] ∧
    (hdr ≠ "\nMX Records:\n" → hdr ∉ block "\nMX Records:\n" (fun record : MX =>
      "  Host: " ++ record.Host ++ ", Priority: " ++ toString record.Pref ++ "\n") mx) ∧
    (hdr ≠ "\nCNAME Record:\n" →
      hdr ∉ (if cname = "" then [] else ["\nCNAME Record:\n", "  " ++ cname ++ "\n"])) ∧
    (hdr ≠ "\nTXT Records:\n" →
      hdr ∉ block "\nTXT Records:\n" (fun record : String => "  " ++ record ++ "\n") txt) ∧
    (hdr ≠ "\nNS Records:\n" →
      hdr ∉ block "\nNS Records:\n" (fun record : NS => "  " ++ record.Host ++ "\n") nsrecord) ∧
    (hdr ≠ "\nIP Addresses:\n" →
      hdr ∉ block "\nIP Addresses:\n" (fun addr : String => "  " ++ addr ++ "\n") addresses) := by
  refine ⟨?_, fun hne => header_not_mem_block hdr _ _ h hne mx_line_indented mx,
    fun hne => header_not_mem_cname hdr cname h hne,
    fun hne => header_not_mem_block hdr _ _ h hne raw_line_indented txt,
    fun hne => header_not_mem_block hdr _ _ h hne (fun a : NS => raw_line_indented a.Host)
      nsrecord,
    fun hne => header_not_mem_block hdr _ _ h hne raw_line_indented addresses⟩
  simp only [List.mem_singleton]
  rw [String.append_assoc]
  exact header_ne_results hdr _ h

theorem TrimSpace_data (l : List Char) :
    (TrimSpace ⟨l⟩).data = (l.dropWhile IsSpace).rdropWhile IsSpace := rfl

/-- A white space character at the end of a line does not change the trimmed
text. -/
theorem TrimSpace_concat_space (l : List Char) (c : Char) (hc : IsSpace c = true) :
    TrimSpace ⟨l ++ [c]⟩ = TrimSpace ⟨l⟩ := by
  apply String.ext
  rw [TrimSpace_data, TrimSpace_data, List.dropWhile_append]
  split
  · rename_i hnil
    have h1 : l.dropWhile IsSpace = [] := by simpa using hnil
    simp [h1, List.dropWhile, hc]
  · exact List.rdropWhile_concat_pos _ _ _ hc

theorem TrimSpace_crlf_lf (l : List Char) :
    TrimSpace ⟨l ++ ['\r'] ++ ['\n']⟩ = TrimSpace ⟨l ++ ['\n']⟩ := by
  rw [TrimSpace_concat_space _ '\n' (by decide), TrimSpace_concat_space _ '\r' (by decide),
    TrimSpace_concat_space _ '\n' (by decide)]

theorem rdropWhile_append_rtakeWhile (p : Char → Bool) (l : List Char) :
    l.rdropWhile p ++ l.rtakeWhile p = l := by
  rw [List.rdropWhile, List.rtakeWhile, ← List.reverse_append, List.takeWhile_append_dropWhile,
    List.reverse_reverse]

theorem TrimSpace_shape (l : List Char) :
    l = l.takeWhile IsSpace ++ (TrimSpace ⟨l⟩).data ++
      (l.dropWhile IsSpace).rtakeWhile IsSpace := by
  rw [TrimSpace_data, List.append_assoc, rdropWhile_append_rtakeWhile,
    List.takeWhile_append_dropWhile]

theorem TrimSpace_head (l : List Char) (c : Char)
    (h : (TrimSpace ⟨l⟩).data.head? = some c) : IsSpace c = false := by
  rw [TrimSpace_data] at h
  have hpre : (l.dropWhile IsSpace).rdropWhile IsSpace <+: l.dropWhile IsSpace :=
    List.rdropWhile_prefix _ _
  obtain ⟨t, ht⟩ := hpre
  cases hk : (l.dropWhile IsSpace).rdropWhile IsSpace with
  | nil => rw [hk] at h; simp at h
  | cons a as =>
    rw [hk] at h ht
    simp only [List.head?_cons, Option.some.injEq] at h
    subst h
    have h0 : (l.dropWhile IsSpace).head? = some a := by rw [← ht]; rfl
    have := List.head?_dropWhile_not IsSpace l
    rw [h0] at this
    simpa using this

theorem TrimSpace_last (l : List Char) (c : Char)
    (h : (TrimSpace ⟨l⟩).data.getLast? = some c) : IsSpace c = false := by
  rw [TrimSpace_data] at h
  have hne : (l.dropWhile IsSpace).rdropWhile IsSpace ≠ [] := by
    intro h0; rw [h0] at h; simp at h
  have := List.rdropWhile_last_not IsSpace (l.dropWhile IsSpace) hne
  rw [List.getLast?_eq_getLast _ hne, Option.some.injEq] at h
  rw [h] at this
  simpa using this

/-! ## The claims -/

/-- C1. `consolidateErrors` returns the first populated error: either every
entry is absent and the result is nil, or there is an index `i` whose entry is
populated while every entry before it is absent, the result is that entry, and
it stays the result whatever entries follow index `i`. -/
theorem consolidateErrors_first_populated (errors : List (Option GoError)) :
    ((∀ e ∈ errors, e = none) ∧ consolidateErrors errors = none) ∨
    (∃ (i : Nat) (err : GoError),
      errors[i]? = some (some err) ∧
      (∀ j, j < i → errors[j]? = some none) ∧
      consolidateErrors errors = some err ∧
      ∀ later : List (Option GoError),
        consolidateErrors (errors.take (i + 1) ++ later) = some err) := by
  induction errors with
  | nil => left; simp [consolidateErrors]
  | cons e errors ih =>
    cases e with
    | some err =>
      right
      refine ⟨0, err, by simp, by simp, by simp [consolidateErrors], ?_⟩
      intro later
      simp [consolidateErrors]
    | none =>
      rcases ih with ⟨hall, hnone⟩ | ⟨i, err, hi, hbefore, hres, hlater⟩
      · left
        refine ⟨?_, by simpa [consolidateErrors] using hnone⟩
        intro e he
        rcases List.mem_cons.mp he with rfl | he
        · rfl
        · exact hall e he
      · right
        refine ⟨i + 1, err, by simpa using hi, ?_, by simpa [consolidateErrors] using hres, ?_⟩
        · intro j hj
          cases j with
          | zero => simp
          | succ j => simpa using hbefore j (by omega)
        · intro later
          simpa [consolidateErrors] using hlater later

/-- C2. With a consolidated error, `printResults` makes exactly one write, the
line `Error for <domain>: <error>`, whatever the five results are: no header
and no record section is printed. -/
theorem printResults_error_only (domain : String) (mx : Option (List MX)) (cname : String)
    (txt : Option (List String)) (nsrecord : Option (List NS))
    (addresses : Option (List String)) (err : GoError) (w : World) :
    printResults domain mx cname txt nsrecord addresses (some err) w =
      { w with stdout := w.stdout ++ ["Error for " ++ domain ++ ": " ++ err.Error ++ "\n"] } := by
  rfl

/-- C3. When at least one of the five lookups of `main` fails, what `main`
prints between its prompt and the pause is the single line
`Error for <domain>: <message>`, the message being the wrapped failure of the
first failing lookup in the order MX, CNAME, TXT, NS, address resolution (and
not in the order of execution, where address resolution precedes NS): the MX
failure whenever MX fails, whatever else fails. -/
theorem main_reports_first_priority_failure (net : Net) (w : World) (line rest : List Char)
    (domain : String) (mxErr cnameErr txtErr resolveErr nsErr : Option GoError)
    (hline : '\n' ∉ line) (hin : w.stdin = line ++ '\n' :: rest)
    (hdomain : domain = TrimSpace ⟨line ++ ['\n']⟩)
    (hmx : (net.LookupMX w.calls domain).2 = mxErr)
    (hcname : (net.LookupCNAME (w.calls ++ [⟨.LookupMX, domain⟩]) domain).2 = cnameErr)
    (htxt : (net.LookupTXT (w.calls ++ [⟨.LookupMX, domain⟩, ⟨.LookupCNAME, domain⟩])
      domain).2 = txtErr)
    (hresolve : (net.LookupHost (w.calls ++ [⟨.LookupMX, domain⟩, ⟨.LookupCNAME, domain⟩,
      ⟨.LookupTXT, domain⟩]) domain).2 = resolveErr)
    (hns : (net.LookupNS (w.calls ++ [⟨.LookupMX, domain⟩, ⟨.LookupCNAME, domain⟩,
      ⟨.LookupTXT, domain⟩, ⟨.LookupHost, domain⟩]) domain).2 = nsErr)
    (hfail : mxErr ≠ none ∨ cnameErr ≠ none ∨ txtErr ≠ none ∨ nsErr ≠ none ∨
      resolveErr ≠ none) :
    (main net w).stdout = w.stdout ++
      ["Enter a domain or host name: ",
       "Error for " ++ domain ++ ": " ++
         (match mxErr, cnameErr, txtErr, nsErr, resolveErr with
          | some c, _, _, _, _ => "MX lookup failed for " ++ domain ++ ": " ++ c.Error
          | none, some c, _, _, _ => "CNAME lookup failed for " ++ domain ++ ": " ++ c.Error
          | none, none, some c, _, _ => "TXT lookup failed for " ++ domain ++ ": " ++ c.Error
          | none, none, none, some c, _ => "NS lookup failed for " ++ domain ++ ": " ++ c.Error
          | none, none, none, none, some c =>
            "host resolution failed for " ++ domain ++ ": " ++ c.Error
          | none, none, none, none, none => "") ++ "\n",
       "\n\nPress Enter to continue...",
       if '\n' ∈ rest then "\n" else "Error reading input: EOF\n"] := by
  subst hdomain
  rw [main_of_line net w line rest hline hin]
  have hf := fun w => ReadString_frame w
  simp only [checkMxRecord_eq, checkCnameRecord_eq, checkTxtRecord_eq, checkNsRecord_eq,
    resolveDomain_eq, World.called, Print, Println, List.append_assoc, List.cons_append,
    List.nil_append,
    hmx, hcname, htxt, hresolve, hns]
  rcases mxErr with _ | e1 <;> rcases cnameErr with _ | e2 <;> rcases txtErr with _ | e3 <;>
    rcases nsErr with _ | e4 <;> rcases resolveErr with _ | e5 <;>
    first
    | (exfalso; simp at hfail; done)
    | (simp only [consolidateErrors, printResults, Print, (hf _).1, (hf _).2.2]
       by_cases hnl : '\n' ∈ rest <;>
         simp [hnl, EOF, GoError.Error, Errorf, String.append_assoc])

/-- The run of C3 on `nonexistent-domain-xyz123.invalid` with a resolver whose
five operations fail: the line carries the MX failure. -/
theorem main_reports_first_priority_failure_witness :
    (main failingNet ⟨"nonexistent-domain-xyz123.invalid\n".data, [], []⟩).stdout =
      ["Enter a domain or host name: ",
       "Error for nonexistent-domain-xyz123.invalid: " ++
         "MX lookup failed for nonexistent-domain-xyz123.invalid: no such host\n",
       "\n\nPress Enter to continue...",
       "Error reading input: EOF\n"] :=
  (main_reports_first_priority_failure failingNet
    ⟨"nonexistent-domain-xyz123.invalid\n".data, [], []⟩
    "nonexistent-domain-xyz123.invalid".data [] "nonexistent-domain-xyz123.invalid"
    (some (.cause "no such host")) (some (.cause "no such host")) (some (.cause "no such host"))
    (some (.cause "no such host")) (some (.cause "no such host"))
    (by decide) (by decide) (by decide) rfl rfl rfl rfl rfl (by decide)).trans (by decide)

/-- C4, as stated, fails for slices that are empty without being nil: with an
empty MX, TXT, NS and address slice `printResults` still prints the four
section headers. -/
theorem printResults_empty_slices_print_headers :
    (printResults "example.com" (some []) "" (some []) (some []) (some []) none
      ⟨[], [], []⟩).stdout =
      ["Results for example.com\n", "\nMX Records:\n", "\nTXT Records:\n", "\nNS Records:\n",
       "\nIP Addresses:\n"] := by
  decide

/-- C4, amended. Without a consolidated error, the output of `printResults`
is the domain header and one block per category in the order MX, CNAME, TXT,
NS, addresses.  For each of the categories MX, TXT, NS and addresses the block
is empty when the slice is nil (no header, no body line, no message), it is
the header alone for a slice that is empty without being nil, and the header
followed by one line per record otherwise; the header of the category occurs
nowhere in what the other categories print. -/
theorem printResults_nil_slice_omitted (domain : String) (mx : Option (List MX))
    (cname : String) (txt : Option (List String)) (nsrecord : Option (List NS))
    (addresses : Option (List String)) :
    ((∀ (mx : Option (List MX)) (w : World),
      (printResults domain mx cname txt nsrecord addresses none w).stdout =
        w.stdout ++ ["Results for " ++ domain ++ "\n"] ++
          (match mx with
            | none => []
            | some [] => ["\nMX Records:\n"]
            | some (r :: rs) => "\nMX Records:\n" :: (r :: rs).map (fun record =>
                "  Host: " ++ record.Host ++ ", Priority: " ++ toString record.Pref ++ "\n")) ++
          (if cname = "" then [] else ["\nCNAME Record:\n", "  " ++ cname ++ "\n"]) ++
          (match txt with
            | none => []
            | some records => "\nTXT Records:\n" :: records.map (fun record =>
                "  " ++ record ++ "\n")) ++
          (match nsrecord with
            | none => []
            | some records => "\nNS Records:\n" :: records.map (fun record =>
                "  " ++ record.Host ++ "\n")) ++
          (match addresses with
            | none => []
            | some records => "\nIP Addresses:\n" :: records.map (fun record =>
                "  " ++ record ++ "\n"))) ∧
      "\nMX Records:\n" ∉ ["Results for " ++ domain ++ "\n"] ++
        (if cname = "" then [] else ["\nCNAME Record:\n", "  " ++ cname ++ "\n"]) ++
        (match txt with
          | none => []
          | some records => "\nTXT Records:\n" :: records.map (fun record =>
              "  " ++ record ++ "\n")) ++
        (match nsrecord with
          | none => []
          | some records => "\nNS Records:\n" :: records.map (fun record =>
              "  " ++ record.Host ++ "\n")) ++
        (match addresses with
          | none => []
          | some records => "\nIP Addresses:\n" :: records.map (fun record =>
              "  " ++ record ++ "\n"))) ∧
    ((∀ (txt : Option (List String)) (w : World),
      (printResults domain mx cname txt nsrecord addresses none w).stdout =
        w.stdout ++ ["Results for " ++ domain ++ "\n"] ++
          (match mx with
            | none => []
            | some records => "\nMX Records:\n" :: records.map (fun record =>
                "  Host: " ++ record.Host ++ ", Priority: " ++ toString record.Pref ++ "\n")) ++
          (if cname = "" then [] else ["\nCNAME Record:\n", "  " ++ cname ++ "\n"]) ++
          (match txt with
            | none => []
            | some [] => ["\nTXT Records:\n"]
            | some (r :: rs) => "\nTXT Records:\n" :: (r :: rs).map (fun record =>
                "  " ++ record ++ "\n")) ++
          (match nsrecord with
            | none => []
            | some records => "\nNS Records:\n" :: records.map (fun record =>
                "  " ++ record.Host ++ "\n")) ++
          (match addresses with
            | none => []
            | some records => "\nIP Addresses:\n" :: records.map (fun record =>
                "  " ++ record ++ "\n"))) ∧
      "\nTXT Records:\n" ∉ ["Results for " ++ domain ++ "\n"] ++
        (match mx with
          | none => []
          | some records => "\nMX Records:\n" :: records.map (fun record =>
              "  Host: " ++ record.Host ++ ", Priority: " ++ toString record.Pref ++ "\n")) ++
        (if cname = "" then [] else ["\nCNAME Record:\n", "  " ++ cname ++ "\n"]) ++
        (match nsrecord with
          | none => []
          | some records => "\nNS Records:\n" :: records.map (fun record =>
              "  " ++ record.Host ++ "\n")) ++
        (match addresses with
          | none => []
          | some records => "\nIP Addresses:\n" :: records.map (fun record =>
              "  " ++ record ++ "\n"))) ∧
    ((∀ (nsrecord : Option (List NS)) (w : World),
      (printResults domain mx cname txt nsrecord addresses none w).stdout =
        w.stdout ++ ["Results for " ++ domain ++ "\n"] ++
          (match mx with
            | none => []
            | some records => "\nMX Records:\n" :: records.map (fun record =>
                "  Host: " ++ record.Host ++ ", Priority: " ++ toString record.Pref ++ "\n")) ++
          (if cname = "" then [] else ["\nCNAME Record:\n", "  " ++ cname ++ "\n"]) ++
          (match txt with
            | none => []
            | some records => "\nTXT Records:\n" :: records.map (fun record =>
                "  " ++ record ++ "\n")) ++
          (match nsrecord with
            | none => []
            | some [] => ["\nNS Records:\n"]
            | some (r :: rs) => "\nNS Records:\n" :: (r :: rs).map (fun record =>
                "  " ++ record.Host ++ "\n")) ++
          (match addresses with
            | none => []
            | some records => "\nIP Addresses:\n" :: records.map (fun record =>
                "  " ++ record ++ "\n"))) ∧
      "\nNS Records:\n" ∉ ["Results for " ++ domain ++ "\n"] ++
        (match mx with
          | none => []
          | some records => "\nMX Records:\n" :: records.map (fun record =>
              "  Host: " ++ record.Host ++ ", Priority: " ++ toString record.Pref ++ "\n")) ++
        (if cname = "" then [] else ["\nCNAME Record:\n", "  " ++ cname ++ "\n"]) ++
        (match txt with
          | none => []
          | some records => "\nTXT Records:\n" :: records.map (fun record =>
              "  " ++ record ++ "\n")) ++
        (match addresses with
          | none => []
          | some records => "\nIP Addresses:\n" :: records.map (fun record =>
              "  " ++ record ++ "\n"))) ∧
    ((∀ (addresses : Option (List String)) (w : World),
      (printResults domain mx cname txt nsrecord addresses none w).stdout =
        w.stdout ++ ["Results for " ++ domain ++ "\n"] ++
          (match mx with
            | none => []
            | some records => "\nMX Records:\n" :: records.map (fun record =>
                "  Host: " ++ record.Host ++ ", Priority: " ++ toString record.Pref ++ "\n")) ++
          (if cname = "" then [] else ["\nCNAME Record:\n", "  " ++ cname ++ "\n"]) ++
          (match txt with
            | none => []
            | some records => "\nTXT Records:\n" :: records.map (fun record =>
                "  " ++ record ++ "\n")) ++
          (match nsrecord with
            | none => []
            | some records => "\nNS Records:\n" :: records.map (fun record =>
                "  " ++ record.Host ++ "\n")) ++
          (match addresses with
            | none => []
            | some [] => ["\nIP Addresses:\n"]
            | some (r :: rs) => "\nIP Addresses:\n" :: (r :: rs).map (fun record =>
                "  " ++ record ++ "\n"))) ∧
      "\nIP Addresses:\n" ∉ ["Results for " ++ domain ++ "\n"] ++
        (match mx with
          | none => []
          | some records => "\nMX Records:\n" :: records.map (fun record =>
              "  Host: " ++ record.Host ++ ", Priority: " ++ toString record.Pref ++ "\n")) ++
        (if cname = "" then [] else ["\nCNAME Record:\n", "  " ++ cname ++ "\n"]) ++
        (match txt with
          | none => []
          | some records => "\nTXT Records:\n" :: records.map (fun record =>
              "  " ++ record ++ "\n")) ++
        (match nsrecord with
          | none => []
          | some records => "\nNS Records:\n" :: records.map (fun record =>
              "  " ++ record.Host ++ "\n"))) := by
  refine ⟨?_, ?_, ?_, ?_⟩
  · refine ⟨fun mx w => ?_, ?_⟩
    · rw [printResults_blocks]
      rcases mx with _ | _ | _ <;> cases txt <;> cases nsrecord <;> cases addresses <;>
        simp [block]
    · have hh := header_not_mem_others domain mx cname txt nsrecord addresses "\nMX Records:\n"
        (by decide)
      cases txt <;> cases nsrecord <;> cases addresses <;>
        simp_all [block]
  · refine ⟨fun txt w => ?_, ?_⟩
    · rw [printResults_blocks]
      rcases txt with _ | _ | _ <;> cases mx <;> cases nsrecord <;> cases addresses <;>
        simp [block]
    · have hh := header_not_mem_others domain mx cname txt nsrecord addresses "\nTXT Records:\n"
        (by decide)
      cases mx <;> cases nsrecord <;> cases addresses <;>
        simp_all [block]
  · refine ⟨fun nsrecord w => ?_, ?_⟩
    · rw [printResults_blocks]
      rcases nsrecord with _ | _ | _ <;> cases mx <;> cases txt <;> cases addresses <;>
        simp [block]
    · have hh := header_not_mem_others domain mx cname txt nsrecord addresses "\nNS Records:\n"
        (by decide)
      cases mx <;> cases txt <;> cases addresses <;>
        simp_all [block]
  · refine ⟨fun addresses w => ?_, ?_⟩
    · rw [printResults_blocks]
      rcases addresses with _ | _ | _ <;> cases mx <;> cases txt <;> cases nsrecord <;>
        simp [block]
    · have hh := header_not_mem_others domain mx cname txt nsrecord addresses "\nIP Addresses:\n"
        (by decide)
      cases mx <;> cases txt <;> cases nsrecord <;>
        simp_all [block]

/-- C5. Without a consolidated error, for each of the categories MX, TXT, NS
and addresses and every slice of N >= 1 records, the whole output of
`printResults` is the domain header and the sections of the categories in
their order, where the section of that category is its header followed by
exactly N lines, the i-th line rendering the i-th record of the slice
(`Host: <host>, Priority: <pref>` for MX, the raw value for the others):
nothing is added, reordered, sorted or dropped. -/
theorem printResults_one_line_per_record (domain : String) (mx : Option (List MX))
    (cname : String) (txt : Option (List String)) (nsrecord : Option (List NS))
    (addresses : Option (List String)) (w : World) :
    (∀ (r : MX) (rs : List MX), ∃ lines : List String,
      lines.length = rs.length + 1 ∧
      (∀ i : Nat, lines[i]? = ((r :: rs)[i]?).map (fun record =>
        "  Host: " ++ record.Host ++ ", Priority: " ++ toString record.Pref ++ "\n")) ∧
      (printResults domain (some (r :: rs)) cname txt nsrecord addresses none w).stdout =
        w.stdout ++ ["Results for " ++ domain ++ "\n"] ++
          ("\nMX Records:\n" :: lines) ++
          (if cname = "" then [] else ["\nCNAME Record:\n", "  " ++ cname ++ "\n"]) ++
          (match txt with
            | none => []
            | some records => "\nTXT Records:\n" :: records.map (fun record =>
                "  " ++ record ++ "\n")) ++
          (match nsrecord with
            | none => []
            | some records => "\nNS Records:\n" :: records.map (fun record =>
                "  " ++ record.Host ++ "\n")) ++
          (match addresses with
            | none => []
            | some records => "\nIP Addresses:\n" :: records.map (fun record =>
                "  " ++ record ++ "\n"))) ∧
    (∀ (r : String) (rs : List String), ∃ lines : List String,
      lines.length = rs.length + 1 ∧
      (∀ i : Nat, lines[i]? = ((r :: rs)[i]?).map (fun record =>
        "  " ++ record ++ "\n")) ∧
      (printResults domain mx cname (some (r :: rs)) nsrecord addresses none w).stdout =
        w.stdout ++ ["Results for " ++ domain ++ "\n"] ++
          (match mx with
            | none => []
            | some records => "\nMX Records:\n" :: records.map (fun record =>
                "  Host: " ++ record.Host ++ ", Priority: " ++ toString record.Pref ++ "\n")) ++
          (if cname = "" then [] else ["\nCNAME Record:\n", "  " ++ cname ++ "\n"]) ++
          ("\nTXT Records:\n" :: lines) ++
          (match nsrecord with
            | none => []
            | some records => "\nNS Records:\n" :: records.map (fun record =>
                "  " ++ record.Host ++ "\n")) ++
          (match addresses with
            | none => []
            | some records => "\nIP Addresses:\n" :: records.map (fun record =>
                "  " ++ record ++ "\n"))) ∧
    (∀ (r : NS) (rs : List NS), ∃ lines : List String,
      lines.length = rs.length + 1 ∧
      (∀ i : Nat, lines[i]? = ((r :: rs)[i]?).map (fun record =>
        "  " ++ record.Host ++ "\n")) ∧
      (printResults domain mx cname txt (some (r :: rs)) addresses none w).stdout =
        w.stdout ++ ["Results for " ++ domain ++ "\n"] ++
          (match mx with
            | none => []
            | some records => "\nMX Records:\n" :: records.map (fun record =>
                "  Host: " ++ record.Host ++ ", Priority: " ++ toString record.Pref ++ "\n")) ++
          (if cname = "" then [] else ["\nCNAME Record:\n", "  " ++ cname ++ "\n"]) ++
          (match txt with
            | none => []
            | some records => "\nTXT Records:\n" :: records.map (fun record =>
                "  " ++ record ++ "\n")) ++
          ("\nNS Records:\n" :: lines) ++
          (match addresses with
            | none => []
            | some records => "\nIP Addresses:\n" :: records.map (fun record =>
                "  " ++ record ++ "\n"))) ∧
    (∀ (r : String) (rs : List String), ∃ lines : List String,
      lines.length = rs.length + 1 ∧
      (∀ i : Nat, lines[i]? = ((r :: rs)[i]?).map (fun record =>
        "  " ++ record ++ "\n")) ∧
      (printResults domain mx cname txt nsrecord (some (r :: rs)) none w).stdout =
        w.stdout ++ ["Results for " ++ domain ++ "\n"] ++
          (match mx with
            | none => []
            | some records => "\nMX Records:\n" :: records.map (fun record =>
                "  Host: " ++ record.Host ++ ", Priority: " ++ toString record.Pref ++ "\n")) ++
          (if cname = "" then [] else ["\nCNAME Record:\n", "  " ++ cname ++ "\n"]) ++
          (match txt with
            | none => []
            | some records => "\nTXT Records:\n" :: records.map (fun record =>
                "  " ++ record ++ "\n")) ++
          (match nsrecord with
            | none => []
            | some records => "\nNS Records:\n" :: records.map (fun record =>
                "  " ++ record.Host ++ "\n")) ++
          ("\nIP Addresses:\n" :: lines)) := by
  refine ⟨fun r rs => ⟨(r :: rs).map _, by simp, fun i => List.getElem?_map _ _ _, ?_⟩,
    fun r rs => ⟨(r :: rs).map _, by simp, fun i => List.getElem?_map _ _ _, ?_⟩,
    fun r rs => ⟨(r :: rs).map _, by simp, fun i => List.getElem?_map _ _ _, ?_⟩,
    fun r rs => ⟨(r :: rs).map _, by simp, fun i => List.getElem?_map _ _ _, ?_⟩⟩
  · rw [printResults_blocks]
    cases txt <;> cases nsrecord <;> cases addresses <;> simp [block]
  · rw [printResults_blocks]
    cases mx <;> cases nsrecord <;> cases addresses <;> simp [block]
  · rw [printResults_blocks]
    cases mx <;> cases txt <;> cases addresses <;> simp [block]
  · rw [printResults_blocks]
    cases mx <;> cases txt <;> cases nsrecord <;> simp [block]

/-- C6, as stated, fails when an empty category is an empty slice that is not
nil: for `example.com` with one MX record, one address and empty TXT and NS
slices, the output has a TXT and an NS header. -/
theorem printResults_example_with_empty_slices :
    (printResults "example.com" (some [⟨"mail.example.com", 10⟩]) "" (some []) (some [])
      (some ["93.184.216.34"]) none ⟨[], [], []⟩).stdout =
      ["Results for example.com\n",
       "\nMX Records:\n", "  Host: mail.example.com, Priority: 10\n",
       "\nTXT Records:\n",
       "\nNS Records:\n",
       "\nIP Addresses:\n", "  93.184.216.34\n"] := by
  decide

/-- C6, amended. Without a consolidated error, `printResults` writes the line
`Results for <domain>` and then, in the fixed order MX, CNAME, TXT, NS,
addresses, the section of every category that is present: a slice that is not
nil (also when it holds no record), a CNAME string that is not empty.  A
section is its header followed by its record lines.  For `example.com` with
the MX record (mail.example.com, 10), the address 93.184.216.34, the CNAME
`""` and nil TXT and NS slices, the output is the domain header, the MX
section with its one line and the address section with its one line. -/
theorem printResults_sections_in_order (domain : String) (mx : Option (List MX))
    (cname : String) (txt : Option (List String)) (nsrecord : Option (List NS))
    (addresses : Option (List String)) (w : World) :
    (printResults domain mx cname txt nsrecord addresses none w).stdout =
      w.stdout ++ ["Results for " ++ domain ++ "\n"] ++
        (match mx with
          | none => []
          | some records => "\nMX Records:\n" :: records.map (fun record =>
              "  Host: " ++ record.Host ++ ", Priority: " ++ toString record.Pref ++ "\n")) ++
        (if cname = "" then [] else ["\nCNAME Record:\n", "  " ++ cname ++ "\n"]) ++
        (match txt with
          | none => []
          | some records => "\nTXT Records:\n" :: records.map (fun record =>
              "  " ++ record ++ "\n")) ++
        (match nsrecord with
          | none => []
          | some records => "\nNS Records:\n" :: records.map (fun record =>
              "  " ++ record.Host ++ "\n")) ++
        (match addresses with
          | none => []
          | some addrs => "\nIP Addresses:\n" :: addrs.map (fun addr =>
              "  " ++ addr ++ "\n")) ∧
    (printResults "example.com" (some [⟨"mail.example.com", 10⟩]) "" none none
      (some ["93.184.216.34"]) none w).stdout =
      w.stdout ++
        ["Results for example.com\n",
         "\nMX Records:\n", "  Host: mail.example.com, Priority: 10\n",
         "\nIP Addresses:\n", "  93.184.216.34\n"] := by
  constructor
  · rw [printResults_blocks]
    cases mx <;> cases txt <;> cases nsrecord <;> cases addresses <;> simp [block]
  · rw [printResults_blocks]
    simp [block]
    decide

/-- C7, as stated, fails for `resolveDomain`: when the resolver fails for
`example.com` with the cause `no such host`, the message of the returned error
is `host resolution failed for example.com: no such host`, which is not
`<kind> lookup failed for example.com: no such host` for any text `<kind>`. -/
theorem resolveDomain_message_is_not_lookup_failed :
    (resolveDomain failingNet "example.com" ⟨[], [], []⟩).1.2.map GoError.Error =
      some "host resolution failed for example.com: no such host" ∧
    ¬ ∃ kind : String,
      (resolveDomain failingNet "example.com" ⟨[], [], []⟩).1.2.map GoError.Error =
        some (kind ++ " lookup failed for example.com: no such host") := by
  refine ⟨by decide, ?_⟩
  rintro ⟨kind, h⟩
  have h1 : (resolveDomain failingNet "example.com" ⟨[], [], []⟩).1.2.map GoError.Error =
      some "host resolution failed for example.com: no such host" := by decide
  rw [h1, Option.some.injEq] at h
  have h2 := congrArg String.data h
  rw [String.data_append] at h2
  have h3 : " lookup failed for example.com: no such host".data <:+
      "host resolution failed for example.com: no such host".data := ⟨kind.data, h2.symm⟩
  revert h3
  decide

/-- C7, amended. Each of the five wrappers calls its resolver operation once.
When the resolver reports no error the wrapper returns the resolver's result
unchanged and a nil error.  When the resolver fails with cause `c` the wrapper
returns an absent result (a nil slice, the empty string for CNAME) and an error
that wraps `c` itself, with the message `MX lookup failed for <domain>: <c>`,
`CNAME lookup failed for <domain>: <c>`, `TXT lookup failed for <domain>: <c>`,
`NS lookup failed for <domain>: <c>` and, for `resolveDomain`,
`host resolution failed for <domain>: <c>`. -/
theorem wrappers_return_result_or_wrapped_failure (net : Net) (domain : String) (w : World) :
    ((∀ records, net.LookupMX w.calls domain = (records, none) →
        checkMxRecord net domain w = ((records, none), w.called .LookupMX domain)) ∧
      (∀ records c, net.LookupMX w.calls domain = (records, some c) →
        ∃ e, checkMxRecord net domain w = ((none, some e), w.called .LookupMX domain) ∧
          e.Error = "MX lookup failed for " ++ domain ++ ": " ++ c.Error ∧
          e.Unwrap = some c)) ∧
    ((∀ cname, net.LookupCNAME w.calls domain = (cname, none) →
        checkCnameRecord net domain w = ((cname, none), w.called .LookupCNAME domain)) ∧
      (∀ cname c, net.LookupCNAME w.calls domain = (cname, some c) →
        ∃ e, checkCnameRecord net domain w = (("", some e), w.called .LookupCNAME domain) ∧
          e.Error = "CNAME lookup failed for " ++ domain ++ ": " ++ c.Error ∧
          e.Unwrap = some c)) ∧
    ((∀ records, net.LookupTXT w.calls domain = (records, none) →
        checkTxtRecord net domain w = ((records, none), w.called .LookupTXT domain)) ∧
      (∀ records c, net.LookupTXT w.calls domain = (records, some c) →
        ∃ e, checkTxtRecord net domain w = ((none, some e), w.called .LookupTXT domain) ∧
          e.Error = "TXT lookup failed for " ++ domain ++ ": " ++ c.Error ∧
          e.Unwrap = some c)) ∧
    ((∀ records, net.LookupNS w.calls domain = (records, none) →
        checkNsRecord net domain w = ((records, none), w.called .LookupNS domain)) ∧
      (∀ records c, net.LookupNS w.calls domain = (records, some c) →
        ∃ e, checkNsRecord net domain w = ((none, some e), w.called .LookupNS domain) ∧
          e.Error = "NS lookup failed for " ++ domain ++ ": " ++ c.Error ∧
          e.Unwrap = some c)) ∧
    ((∀ addresses, net.LookupHost w.calls domain = (addresses, none) →
        resolveDomain net domain w = ((addresses, none), w.called .LookupHost domain)) ∧
      (∀ addresses c, net.LookupHost w.calls domain = (addresses, some c) →
        ∃ e, resolveDomain net domain w = ((none, some e), w.called .LookupHost domain) ∧
          e.Error = "host resolution failed for " ++ domain ++ ": " ++ c.Error ∧
          e.Unwrap = some c)) := by
  refine ⟨⟨?_, ?_⟩, ⟨?_, ?_⟩, ⟨?_, ?_⟩, ⟨?_, ?_⟩, ⟨?_, ?_⟩⟩
  · intro r h; rw [checkMxRecord_eq, h]
  · intro r c h; rw [checkMxRecord_eq, h]; exact ⟨_, rfl, rfl, rfl⟩
  · intro r h; rw [checkCnameRecord_eq, h]
  · intro r c h; rw [checkCnameRecord_eq, h]; exact ⟨_, rfl, rfl, rfl⟩
  · intro r h; rw [checkTxtRecord_eq, h]
  · intro r c h; rw [checkTxtRecord_eq, h]; exact ⟨_, rfl, rfl, rfl⟩
  · intro r h; rw [checkNsRecord_eq, h]
  · intro r c h; rw [checkNsRecord_eq, h]; exact ⟨_, rfl, rfl, rfl⟩
  · intro r h; rw [resolveDomain_eq, h]
  · intro r c h; rw [resolveDomain_eq, h]; exact ⟨_, rfl, rfl, rfl⟩

/-- C8. Once `main` has read its input line, the resolver is called exactly
five times, each operation once with the trimmed domain, in the order MX,
CNAME, TXT, address resolution, NS, whatever each lookup answers. -/
theorem main_runs_each_lookup_once (net : Net) (w : World) (line rest : List Char)
    (hline : '\n' ∉ line) (hin : w.stdin = line ++ '\n' :: rest) :
    (main net w).calls = w.calls ++
      [⟨.LookupMX, TrimSpace ⟨line ++ ['\n']⟩⟩, ⟨.LookupCNAME, TrimSpace ⟨line ++ ['\n']⟩⟩,
       ⟨.LookupTXT, TrimSpace ⟨line ++ ['\n']⟩⟩, ⟨.LookupHost, TrimSpace ⟨line ++ ['\n']⟩⟩,
       ⟨.LookupNS, TrimSpace ⟨line ++ ['\n']⟩⟩] := by
  obtain ⟨report, hrun⟩ := main_run net w.calls (TrimSpace ⟨line ++ ['\n']⟩)
  have h := (hrun line rest w.stdout hline rfl).2
  rw [← hin] at h
  exact h

/-- The run of C8 on the input `example.com` ended by CR LF, with a resolver
whose five operations fail: all five calls are made. -/
theorem main_runs_each_lookup_once_witness :
    (main failingNet ⟨"example.com\r\nnext\n".data, [], []⟩).calls =
      [⟨.LookupMX, "example.com"⟩, ⟨.LookupCNAME, "example.com"⟩, ⟨.LookupTXT, "example.com"⟩,
       ⟨.LookupHost, "example.com"⟩, ⟨.LookupNS, "example.com"⟩] :=
  (main_runs_each_lookup_once failingNet ⟨"example.com\r\nnext\n".data, [], []⟩
    "example.com\r".data "next\n".data (by decide) (by decide)).trans (by decide)

/-- C9. The domain `main` works with is `strings.TrimSpace` of the line it
read: for every resolver and every line, the five lookups are called with the
trimmed line, and what `main` prints is what `printResults` writes for the
trimmed line and the results of the lookups on it.  The trimmed line is the
line without its surrounding white space, line terminators included: the line
is the domain between two runs of white space, and the domain neither starts
nor ends with white space.  Carriage return and line feed are white space, so
for every string `s` the domain obtained from `s` followed by CR LF and the
one obtained from `s` followed by LF are both the trimmed `s` (`example.com`
for `s = example.com`), and `main` makes the same resolver calls and the same
writes on both inputs. -/
theorem main_domain_is_trimmed_line :
    (∀ (net : Net) (line rest : List Char) (out : List String) (calls : List Call)
        (domain : String), '\n' ∉ line → domain = TrimSpace ⟨line ++ ['\n']⟩ →
      (main net ⟨line ++ '\n' :: rest, out, calls⟩).calls =
        calls ++ [⟨.LookupMX, domain⟩, ⟨.LookupCNAME, domain⟩, ⟨.LookupTXT, domain⟩,
          ⟨.LookupHost, domain⟩, ⟨.LookupNS, domain⟩] ∧
      (main net ⟨line ++ '\n' :: rest, out, calls⟩).stdout =
        out ++ ["Enter a domain or host name: "] ++
          (printResults domain
            (checkMxRecord net domain ⟨[], [], calls⟩).1.1
            (checkCnameRecord net domain ⟨[], [], (calls ++ [⟨.LookupMX, domain⟩])⟩).1.1
            (checkTxtRecord net domain ⟨[], [],
                (calls ++ [⟨.LookupMX, domain⟩, ⟨.LookupCNAME, domain⟩])⟩).1.1
            (checkNsRecord net domain ⟨[], [],
                (calls ++ [⟨.LookupMX, domain⟩, ⟨.LookupCNAME, domain⟩, ⟨.LookupTXT, domain⟩,
                ⟨.LookupHost, domain⟩])⟩).1.1
            (resolveDomain net domain ⟨[], [],
                (calls ++ [⟨.LookupMX, domain⟩, ⟨.LookupCNAME, domain⟩, ⟨.LookupTXT, domain⟩])⟩).1.1
            (consolidateErrors
              [(checkMxRecord net domain ⟨[], [], calls⟩).1.2,
               (checkCnameRecord net domain ⟨[], [], (calls ++ [⟨.LookupMX, domain⟩])⟩).1.2,
               (checkTxtRecord net domain ⟨[], [],
                   (calls ++ [⟨.LookupMX, domain⟩, ⟨.LookupCNAME, domain⟩])⟩).1.2,
               (checkNsRecord net domain ⟨[], [],
                   (calls ++ [⟨.LookupMX, domain⟩, ⟨.LookupCNAME, domain⟩, ⟨.LookupTXT, domain⟩,
                ⟨.LookupHost, domain⟩])⟩).1.2,
               (resolveDomain net domain ⟨[], [],
                   (calls ++ [⟨.LookupMX, domain⟩, ⟨.LookupCNAME, domain⟩,
                     ⟨.LookupTXT, domain⟩])⟩).1.2])
            ⟨[], [], []⟩).stdout ++
          ["\n\nPress Enter to continue...",
            if '\n' ∈ rest then "\n" else "Error reading input: EOF\n"]) ∧
    (∀ line : String, ∃ before after : List Char,
      line.data = before ++ (TrimSpace line).data ++ after ∧
      (∀ c ∈ before, IsSpace c = true) ∧ (∀ c ∈ after, IsSpace c = true) ∧
      (∀ c, (TrimSpace line).data.head? = some c → IsSpace c = false) ∧
      (∀ c, (TrimSpace line).data.getLast? = some c → IsSpace c = false)) ∧
    (IsSpace '\r' = true ∧ IsSpace '\n' = true) ∧
    (∀ s : String, TrimSpace (s ++ "\r\n") = TrimSpace s ∧
      TrimSpace (s ++ "\n") = TrimSpace s) ∧
    (TrimSpace "example.com\r\n" = "example.com" ∧
      TrimSpace "example.com\n" = "example.com") ∧
    (∀ (net : Net) (s : String) (rest : List Char) (out : List String) (calls : List Call),
      '\n' ∉ s.data →
      (main net ⟨s.data ++ ['\r', '\n'] ++ rest, out, calls⟩).calls =
        calls ++ [⟨.LookupMX, TrimSpace s⟩, ⟨.LookupCNAME, TrimSpace s⟩,
          ⟨.LookupTXT, TrimSpace s⟩, ⟨.LookupHost, TrimSpace s⟩, ⟨.LookupNS, TrimSpace s⟩] ∧
      (main net ⟨s.data ++ ['\n'] ++ rest, out, calls⟩).calls =
        calls ++ [⟨.LookupMX, TrimSpace s⟩, ⟨.LookupCNAME, TrimSpace s⟩,
          ⟨.LookupTXT, TrimSpace s⟩, ⟨.LookupHost, TrimSpace s⟩, ⟨.LookupNS, TrimSpace s⟩]) ∧
    (∀ (net : Net) (s : String) (rest : List Char) (out : List String) (calls : List Call),
      (main net ⟨s.data ++ ['\r', '\n'] ++ rest, out, calls⟩).stdout =
        (main net ⟨s.data ++ ['\n'] ++ rest, out, calls⟩).stdout ∧
      (main net ⟨s.data ++ ['\r', '\n'] ++ rest, out, calls⟩).calls =
        (main net ⟨s.data ++ ['\n'] ++ rest, out, calls⟩).calls) ∧
    ((main failingNet ⟨"  example.com \t\r\n".data, [], []⟩).calls =
        [⟨.LookupMX, "example.com"⟩, ⟨.LookupCNAME, "example.com"⟩,
          ⟨.LookupTXT, "example.com"⟩, ⟨.LookupHost, "example.com"⟩,
          ⟨.LookupNS, "example.com"⟩] ∧
      (main failingNet ⟨"example.com\n".data, [], []⟩).calls =
        [⟨.LookupMX, "example.com"⟩, ⟨.LookupCNAME, "example.com"⟩,
          ⟨.LookupTXT, "example.com"⟩, ⟨.LookupHost, "example.com"⟩,
          ⟨.LookupNS, "example.com"⟩]) := by
  have hlf : ∀ l : List Char, TrimSpace ⟨l ++ ['\n']⟩ = TrimSpace ⟨l⟩ :=
    fun l => TrimSpace_concat_space l '\n' (by decide)
  have hcr : ∀ l : List Char, TrimSpace ⟨l ++ ['\r']⟩ = TrimSpace ⟨l⟩ :=
    fun l => TrimSpace_concat_space l '\r' (by decide)
  refine ⟨fun net line rest out calls domain hline hd => ?_, fun line => ?_,
    ⟨by decide, by decide⟩, fun s => ⟨?_, ?_⟩, ⟨by decide, by decide⟩,
    fun net s rest out calls hs => ?_, fun net s rest out calls => ?_,
    ⟨by decide, by decide⟩⟩
  · subst hd
    obtain ⟨report, hrun⟩ := main_run net calls (TrimSpace ⟨line ++ ['\n']⟩)
    exact ⟨(hrun line rest out hline rfl).2, main_stdout net calls _ line rest out hline rfl⟩
  · refine ⟨line.data.takeWhile IsSpace, (line.data.dropWhile IsSpace).rtakeWhile IsSpace,
      TrimSpace_shape line.data, fun c hc => List.mem_takeWhile_imp hc,
      fun c hc => List.mem_rtakeWhile_imp hc, TrimSpace_head line.data, TrimSpace_last line.data⟩
  · have h : TrimSpace ⟨s.data ++ ['\r'] ++ ['\n']⟩ = TrimSpace ⟨s.data⟩ := by
      rw [hlf, hcr]
    simpa [String.ext_iff, TrimSpace] using congrArg String.data h
  · have h := hlf s.data
    simpa [String.ext_iff, TrimSpace] using congrArg String.data h
  · obtain ⟨report, hrun⟩ := main_run net calls (TrimSpace s)
    have hs1 : '\n' ∉ s.data ++ ['\r'] := by
      simp only [List.mem_append, List.mem_singleton, not_or]
      exact ⟨hs, by decide⟩
    have h1 := hrun (s.data ++ ['\r']) rest out hs1 (by rw [hlf, hcr])
    have h2 := hrun s.data rest out hs (hlf s.data)
    have e1 : s.data ++ ['\r', '\n'] ++ rest = (s.data ++ ['\r']) ++ '\n' :: rest := by simp
    have e2 : s.data ++ ['\n'] ++ rest = s.data ++ '\n' :: rest := by simp
    rw [e1, e2]
    exact ⟨h1.2, h2.2⟩
  · by_cases hs : '\n' ∈ s.data
    · obtain ⟨a, b, hab, ha⟩ := List.eq_append_cons_of_mem hs
      obtain ⟨report, hrun⟩ := main_run net calls (TrimSpace ⟨a ++ ['\n']⟩)
      have h1 := hrun a (b ++ ['\r', '\n'] ++ rest) out ha rfl
      have h2 := hrun a (b ++ ['\n'] ++ rest) out ha rfl
      have e1 : s.data ++ ['\r', '\n'] ++ rest = a ++ '\n' :: (b ++ ['\r', '\n'] ++ rest) := by
        rw [hab]; simp
      have e2 : s.data ++ ['\n'] ++ rest = a ++ '\n' :: (b ++ ['\n'] ++ rest) := by
        rw [hab]; simp
      rw [e1, e2, h1.1, h1.2, h2.1, h2.2]
      simp
    · obtain ⟨report, hrun⟩ := main_run net calls (TrimSpace ⟨s.data ++ ['\n']⟩)
      have hs1 : '\n' ∉ s.data ++ ['\r'] := by
        simp only [List.mem_append, List.mem_singleton, not_or]
        exact ⟨hs, by decide⟩
      have h1 := hrun (s.data ++ ['\r']) rest out hs1 (TrimSpace_crlf_lf s.data)
      have h2 := hrun s.data rest out hs rfl
      have e1 : s.data ++ ['\r', '\n'] ++ rest = (s.data ++ ['\r']) ++ '\n' :: rest := by simp
      have e2 : s.data ++ ['\n'] ++ rest = s.data ++ '\n' :: rest := by simp
      rw [e1, e2, h1.1, h1.2, h2.1, h2.2]
      exact ⟨rfl, rfl⟩

end DomainChecker
